import Mathlib

/-!
Verification of the VisionConnect backend core: the device provisioning
state machine (`camera_routes.py`), the signaling connection registry and
relay (`signaling.py`, `main.py`), and the QR payload codec (`qr_utils.py`).

Python runtime objects are embedded shallowly:
  * a Python `dict` is an association list whose keys stay pairwise
    distinct (an invariant we prove for every reachable registry state);
  * a MongoDB collection is a list of records in insertion order;
    `find_one` returns the first match, `update_one` rewrites the first
    record matching the filter;
  * a live websocket handle is an opaque `Nat` identifier;
  * fallible endpoints return an explicit result constructor mirroring the
    HTTP outcome (`404` ↦ `notFound`, `500` ↦ `serverError`).
-/

namespace VisionConnect

/-! ### Python dictionaries (used for the in-memory signaling maps) -/

/-- Opaque handle to a live transport connection (a `WebSocket` object). -/
abbrev Chan := Nat

/-- A Python `dict` with `String` keys, as an association list. -/
abbrev PyDict := List (String × Chan)

/-- Python `d[k] = v`: replace the value in place when the key is present,
otherwise append a fresh entry. -/
def dictSet (k : String) (v : Chan) : PyDict → PyDict
  | [] => [(k, v)]
  | (k', v') :: t => if k' = k then (k, v) :: t else (k', v') :: dictSet k v t

/-- Python `d.pop(k, None)`: drop the entry for `k` when present, no error
when absent. -/
def dictPop (k : String) : PyDict → PyDict
  | [] => []
  | (k', v') :: t => if k' = k then t else (k', v') :: dictPop k t

/-- Python `d.get(k)`: the value stored under `k`, or `none`. -/
def dictGet (k : String) (d : PyDict) : Option Chan :=
  (d.find? (fun p => decide (p.1 = k))).map Prod.snd

/-! ### signaling.py: the two in-memory registries -/

/-- The module-level state of `signaling.py`: `devices` maps a camera uid
to its websocket, `users` maps a user id to its websocket. -/
structure SigState where
  devices : PyDict
  users : PyDict
deriving DecidableEq, Repr

/-- Registry state at process start: both maps empty. -/
def emptySig : SigState := { devices := [], users := [] }

/-- `register_device(uid, ws)`: `devices[uid] = ws`. -/
def register_device (uid : String) (ws : Chan) (st : SigState) : SigState :=
  { st with devices := dictSet uid ws st.devices }

/-- `unregister_device(uid)`: `devices.pop(uid, None)`. -/
def unregister_device (uid : String) (st : SigState) : SigState :=
  { st with devices := dictPop uid st.devices }

/-- `register_user(user_id, ws)`: `users[user_id] = ws`. -/
def register_user (user_id : String) (ws : Chan) (st : SigState) : SigState :=
  { st with users := dictSet user_id ws st.users }

/-- `unregister_user(user_id)`: `users.pop(user_id, None)`. -/
def unregister_user (user_id : String) (st : SigState) : SigState :=
  { st with users := dictPop user_id st.users }

/-- `forward_to_device(uid, message)`: look the target up in `devices`;
when present, hand the message to that channel (`ws.send_text`), when
absent do nothing. The registry itself is never mutated. -/
def forward_to_device (uid : String) (msg : String) (st : SigState) :
    SigState × Option (Chan × String) :=
  match dictGet uid st.devices with
  | some ws => (st, some (ws, msg))
  | none => (st, none)

/-- `forward_to_user(user_id, message)`: same as `forward_to_device` over
the `users` map. -/
def forward_to_user (user_id : String) (msg : String) (st : SigState) :
    SigState × Option (Chan × String) :=
  match dictGet user_id st.users with
  | some ws => (st, some (ws, msg))
  | none => (st, none)

/-- One registry mutation, as issued by connection handlers. -/
inductive RegOp
  | regDevice (uid : String) (ch : Chan)
  | unregDevice (uid : String)
  | regUser (user_id : String) (ch : Chan)
  | unregUser (user_id : String)
deriving DecidableEq, Repr

/-- Apply one registry operation. -/
def applyOp (st : SigState) : RegOp → SigState
  | .regDevice uid ch => register_device uid ch st
  | .unregDevice uid => unregister_device uid st
  | .regUser k ch => register_user k ch st
  | .unregUser k => unregister_user k st

/-- Apply a whole history of registry operations in order. -/
def applyOps (st : SigState) (ops : List RegOp) : SigState :=
  ops.foldl applyOp st

/-- Both maps have pairwise-distinct keys, so at most one channel is
addressable per (role, key). -/
def nodupKeys (st : SigState) : Prop :=
  (st.devices.map Prod.fst).Nodup ∧ (st.users.map Prod.fst).Nodup

instance (st : SigState) : Decidable (nodupKeys st) := by
  unfold nodupKeys; infer_instance

/-! ### main.py: the `/ws` endpoint -/

/-- The names bound at module level in `main.py`: its imports
(`fastapi` names, `CORSMiddleware`, the four sibling modules, the two
model classes, the two `werkzeug` hash helpers, `uuid`, `jwt`) plus the
objects the module itself defines. `json` is not among them: `main.py`
has no `import json` line. -/
def mainModuleNames : List String :=
  ["FastAPI", "WebSocket", "WebSocketDisconnect", "Depends", "HTTPException",
   "CORSMiddleware", "db", "auth", "signaling", "models",
   "DeviceCreate", "UserCreate", "generate_password_hash", "check_password_hash",
   "uuid", "jwt", "app",
   "register", "login", "add_device", "get_device", "websocket_endpoint"]

/-- The dictionary `json.loads` would return for the first message. -/
structure ParsedMsg where
  role : Option String
  uid : Option String
  user_id : Option String
deriving DecidableEq, Repr

/-- How a `/ws` session's registration phase ends. -/
inductive SessionResult
  | nameErrorClosed
  | errorClosed
  | registered (role : String) (key : String)
  | registeredNoneKey (role : String)
  | noRole
deriving DecidableEq, Repr

/-- Resolving the name `json` inside `websocket_endpoint`: when `main.py`
binds `json` the bound loader is returned, otherwise the lookup fails and
evaluating `json.loads` raises `NameError`. -/
def mainJsonBinding (loads : String → Option ParsedMsg) :
    Option (String → Option ParsedMsg) :=
  if mainModuleNames.contains "json" then some loads else none

/-- The registration branch of `websocket_endpoint` once the first message
has been parsed: role `device` registers under `msg.get("uid")`, role
`user` under `msg.get("user_id")`, any other role falls through the
`if`/`elif` and the handler returns. A `None` key would be stored under
the Python key `None`; no modelled claim reaches that branch. -/
def handleRegister (m : ParsedMsg) (st : SigState) (ch : Chan) :
    SigState × SessionResult :=
  match m.role with
  | some r =>
    if r = "device" then
      match m.uid with
      | some u => (register_device u ch st, .registered "device" u)
      | none => (st, .registeredNoneKey "device")
    else if r = "user" then
      match m.user_id with
      | some u => (register_user u ch st, .registered "user" u)
      | none => (st, .registeredNoneKey "user")
    else (st, .noRole)
  | none => (st, .noRole)

/-- The first receive step of `websocket_endpoint`: `init_msg` is read,
then `json.loads(init_msg)` is evaluated. If the name `json` is unbound
the step raises `NameError`, which the trailing `except Exception`
handler catches: it prints and calls `ws.close()`, registering nothing.
If `json.loads` itself raises (unparsable text), the same handler runs.
Otherwise the registration branch is taken. -/
def websocket_first_step (jsonBinding : Option (String → Option ParsedMsg))
    (st : SigState) (ch : Chan) (initMsg : String) : SigState × SessionResult :=
  match jsonBinding with
  | none => (st, .nameErrorClosed)
  | some loads =>
    match loads initMsg with
    | none => (st, .errorClosed)
    | some m => handleRegister m st ch

/-- Why the receive loop of a `/ws` session ended. -/
inductive LoopExit
  | disconnect
  | otherError
deriving DecidableEq, Repr

/-- The `except` clauses closing `websocket_endpoint` (lines 104–115 of
`main.py`): on `WebSocketDisconnect` the role's unregister runs; on any
other exception the handler only prints and closes the socket — no
unregister call appears on that path. -/
def websocket_cleanup (exit : LoopExit) (role : String) (key : String)
    (st : SigState) : SigState :=
  match exit with
  | .disconnect =>
    if role = "device" then unregister_device key st
    else if role = "user" then unregister_user key st
    else st
  | .otherError => st

/-! ### qr_utils.py: the payload codec -/

/-- A JSON value as stored in the QR payload dictionaries. -/
inductive JVal
  | s (v : String)
  | n (v : Nat)
  | null
deriving DecidableEq, Repr

/-- A JSON object: keys to values, in insertion order. -/
abbrev JDict := List (String × JVal)

/-- First value stored under `k`, if any. -/
def jget (k : String) (d : JDict) : Option JVal :=
  (d.find? (fun p => decide (p.1 = k))).map Prod.snd

/-- Python `d.get(k)`: `None` when the key is absent. -/
def pyGet (k : String) (d : JDict) : JVal :=
  (jget k d).getD JVal.null

/-- Python `d.get(k, dflt)`. -/
def pyGetD (k : String) (d : JDict) (dflt : JVal) : JVal :=
  (jget k d).getD dflt

/-- Python `k in d`. -/
def hasKey (k : String) (d : JDict) : Bool :=
  (jget k d).isSome

/-- The six caller-supplied arguments of `generate_qr_data`. -/
structure QrFields where
  wifi_ssid : String
  wifi_password : String
  server_url : String
  device_token : String
  user_id : String
  camera_model : String
deriving DecidableEq, Repr

/-- `generate_qr_data`: compact mode emits only `s`, `p`, `t` and the
version tag `v` (the `u`, `m`, `i` lines are commented out in the
source); descriptive mode emits every field under its full name plus
`version: "1.0"`. -/
def generate_qr_data (f : QrFields) (compact : Bool) : JDict :=
  if compact then
    [("s", .s f.wifi_ssid), ("p", .s f.wifi_password),
     ("t", .s f.device_token), ("v", .n 1)]
  else
    [("wifi_ssid", .s f.wifi_ssid), ("wifi_password", .s f.wifi_password),
     ("server_url", .s f.server_url), ("device_token", .s f.device_token),
     ("user_id", .s f.user_id), ("camera_model", .s f.camera_model),
     ("version", .s "1.0")]

/-- `decode_qr_data`: a payload carrying the key `s` is compact and is
expanded to full names with `dict.get` (absent aliases become `None`);
anything else is returned unchanged. -/
def decode_qr_data (d : JDict) : JDict :=
  if hasKey "s" d then
    [("wifi_ssid", pyGet "s" d), ("wifi_password", pyGet "p" d),
     ("device_token", pyGet "t" d), ("server_url", pyGet "u" d),
     ("camera_model", pyGet "m" d), ("user_id", pyGet "i" d),
     ("version", pyGetD "v" d (JVal.n 1))]
  else d

/-! ### camera_routes.py: the provisioning service -/

/-- Device record status strings used by the backend. -/
inductive DStatus
  | pending
  | active
  | created
  | offline
deriving DecidableEq, Repr

/-- One document of the `camera` collection, as written by
`initiate_device_onboarding` (the `_id` Mongo assigns is `id`). -/
structure DeviceRecord where
  id : Nat
  device_name : String
  camera_model : String
  owner_id : String
  wifi_ssid : String
  device_token : String
  status : DStatus
  device_uid : Option String
  local_ip : Option String
  created_at : String
  activated_at : Option String
deriving DecidableEq, Repr

/-- The `devices_collection`: documents in insertion order. -/
abbrev DevicesDB := List DeviceRecord

/-- Mongo `find_one`: the first document satisfying the filter. -/
def find_one (db : DevicesDB) (p : DeviceRecord → Bool) : Option DeviceRecord :=
  db.find? p

/-- Rewrite the first document whose `_id` is `i` (Mongo `update_one` by
`_id` touches at most one document). -/
def replaceFirst (i : Nat) (f : DeviceRecord → DeviceRecord) : DevicesDB → DevicesDB
  | [] => []
  | r :: t => if r.id = i then f r :: t else r :: replaceFirst i f t

/-- Mongo `update_one({_id: i}, {$set: ...})`: returns the new collection
and `modified_count` (1 when a matched document actually changed). -/
def update_one_set (db : DevicesDB) (i : Nat) (f : DeviceRecord → DeviceRecord) :
    DevicesDB × Nat :=
  match find_one db (fun r => decide (r.id = i)) with
  | none => (db, 0)
  | some r => (replaceFirst i f db, if f r = r then 0 else 1)

/-- Request body of `POST /api/camera/onboard` (`DeviceOnboardRequest`). -/
structure OnboardRequest where
  camera_model : String
  wifi_ssid : String
  wifi_password : String
  device_name : String
deriving DecidableEq, Repr

/-- Request body of `POST /api/camera/activate` (`DeviceActivation`). -/
structure ActivationReq where
  device_token : String
  device_uid : String
  camera_model : String
  local_ip : Option String
deriving DecidableEq, Repr

/-- The pending `device_doc` inserted by `initiate_device_onboarding`. -/
def mkPendingDoc (req : OnboardRequest) (user_id tok now : String) (i : Nat) :
    DeviceRecord :=
  { id := i, device_name := req.device_name, camera_model := req.camera_model,
    owner_id := user_id, wifi_ssid := req.wifi_ssid, device_token := tok,
    status := .pending, device_uid := none, local_ip := none,
    created_at := now, activated_at := none }

/-- `initiate_device_onboarding`: inserts a fresh pending record carrying
the generated token (`tok` stands for the `uuid.uuid4()` draw, `now` for
`datetime.utcnow()`); returns the new collection, the new `device_id`
and the token echoed to the app. -/
def initiate_device_onboarding (db : DevicesDB) (req : OnboardRequest)
    (user_id tok now : String) : DevicesDB × Nat × String :=
  (db ++ [mkPendingDoc req user_id tok now db.length], db.length, tok)

/-- Run `initiate_device_onboarding` `n` times from an empty collection,
the `k`-th call drawing token `uuid k`. -/
def initiateN (req : OnboardRequest) (user_id now : String) (uuid : Nat → String) :
    Nat → DevicesDB
  | 0 => []
  | n + 1 =>
    (initiate_device_onboarding (initiateN req user_id now uuid n) req user_id
      (uuid n) now).1

/-- Filter of `activate_device`'s `find_one`: matching token and status
still `pending`. -/
def isPendingWithToken (tok : String) (r : DeviceRecord) : Bool :=
  decide (r.device_token = tok ∧ r.status = DStatus.pending)

/-- The `find_one` step of `activate_device` (line 152 of
`camera_routes.py`). -/
def activate_find (db : DevicesDB) (tok : String) : Option DeviceRecord :=
  find_one db (isPendingWithToken tok)

/-- The `$set` document of `activate_device`'s `update_one`. -/
def applySet (req : ActivationReq) (now : String) (r : DeviceRecord) : DeviceRecord :=
  { r with device_uid := some req.device_uid, status := .active,
           local_ip := req.local_ip, activated_at := some now }

/-- Outcome of `POST /api/camera/activate`. -/
inductive ActResult
  | ok (device_id : Nat)
  | notFound
  | serverError
deriving DecidableEq, Repr

/-- The `update_one` step of `activate_device` (line 164): unconditioned
on status, keyed by the `_id` found earlier; `modified_count == 0` maps
to HTTP 500, otherwise the success payload is returned. -/
def activate_update (db : DevicesDB) (d : DeviceRecord) (req : ActivationReq)
    (now : String) : DevicesDB × ActResult :=
  let db' := (update_one_set db d.id (applySet req now)).1
  if (update_one_set db d.id (applySet req now)).2 = 0 then (db', .serverError)
  else (db', .ok d.id)

/-- `activate_device`, run without interleaving: `find_one` on
token + `pending`, 404 when absent, else the `$set` update by `_id`. -/
def activate_device (db : DevicesDB) (req : ActivationReq) (now : String) :
    DevicesDB × ActResult :=
  match activate_find db req.device_token with
  | none => (db, .notFound)
  | some d => activate_update db d req now

/-- The tail of one `activate_device` call after its `find_one` already
ran (with result `f`) — the two awaited database operations are distinct
suspension points, so another call's operations may run between them. -/
def finishActivate (db : DevicesDB) (f : Option DeviceRecord) (req : ActivationReq)
    (now : String) : DevicesDB × ActResult :=
  match f with
  | none => (db, .notFound)
  | some d => activate_update db d req now

/-- Two concurrent `activate_device` calls under the schedule
find₁ · find₂ · update₁ · update₂: both `find_one`s observe the same
collection, then the updates land in order. Each listed step is one
awaited Mongo operation of the source. -/
def activate_interleaved (db : DevicesDB) (r1 r2 : ActivationReq)
    (t1 t2 : String) : DevicesDB × ActResult × ActResult :=
  let f1 := activate_find db r1.device_token
  let f2 := activate_find db r2.device_token
  let o1 := finishActivate db f1 r1 t1
  let o2 := finishActivate o1.1 f2 r2 t2
  (o2.1, o1.2, o2.2)

/-- Response of `GET /api/camera/check-status/{device_token}`. -/
structure StatusResp where
  device_id : Nat
  status : DStatus
  device_name : Option String
  activated : Bool
deriving DecidableEq, Repr

/-- `check_device_status`: `find_one` by token alone; 404 (`none`) when no
record carries the token, else the status payload with
`activated = (status == "active")`. -/
def check_device_status (db : DevicesDB) (tok : String) : Option StatusResp :=
  match find_one db (fun r => decide (r.device_token = tok)) with
  | none => none
  | some d =>
    some { device_id := d.id, status := d.status,
           device_name := some d.device_name,
           activated := decide (d.status = DStatus.active) }

/-! ### Concrete fixtures for the racing-activation execution -/

/-- The onboarding request used by the racing-activation fixture. -/
def raceOnboardReq : OnboardRequest :=
  { camera_model := "CP_PLUS_WIFI_V2", wifi_ssid := "HomeWifi",
    wifi_password := "pw", device_name := "My Camera" }

/-- A one-record collection holding a single pending device with token
`tok0`. -/
def raceDB : DevicesDB :=
  [mkPendingDoc raceOnboardReq "owner1" "tok0" "t0" 0]

/-- An activation request for token `tok0` presenting hardware uid `uid`. -/
def raceReq (uid : String) : ActivationReq :=
  { device_token := "tok0", device_uid := uid,
    camera_model := "CP_PLUS_WIFI_V2", local_ip := none }

/-! ### Dictionary lemmas -/

theorem dictGet_dictSet_self (k : String) (v : Chan) (d : PyDict) :
    dictGet k (dictSet k v d) = some v := by
  induction d with
  | nil => simp [dictSet, dictGet]
  | cons p t ih =>
    by_cases h : p.1 = k
    · simp [dictSet, h, dictGet]
    · obtain ⟨k', v'⟩ := p
      simp only at h
      simp only [dictSet, if_neg h]
      simpa [dictGet, List.find?_cons, h] using ih

theorem mem_keys_dictSet (a k : String) (v : Chan) (d : PyDict)
    (h : a ∈ (dictSet k v d).map Prod.fst) : a = k ∨ a ∈ d.map Prod.fst := by
  induction d with
  | nil => simpa [dictSet] using h
  | cons p t ih =>
    obtain ⟨k', v'⟩ := p
    by_cases hk : k' = k
    · subst hk
      simpa [dictSet] using h
    · simp only [dictSet, if_neg hk, List.map_cons, List.mem_cons] at h
      rcases h with h | h
      · exact Or.inr (by simp [h])
      · rcases ih h with h' | h'
        · exact Or.inl h'
        · exact Or.inr (by simp [h'])

theorem nodup_keys_dictSet (k : String) (v : Chan) (d : PyDict)
    (h : (d.map Prod.fst).Nodup) : ((dictSet k v d).map Prod.fst).Nodup := by
  induction d with
  | nil => simp [dictSet]
  | cons p t ih =>
    obtain ⟨k', v'⟩ := p
    simp only [List.map_cons, List.nodup_cons] at h
    by_cases hk : k' = k
    · subst hk
      simpa [dictSet, List.nodup_cons] using h
    · simp only [dictSet, if_neg hk, List.map_cons, List.nodup_cons]
      refine ⟨fun hmem => ?_, ih h.2⟩
      rcases mem_keys_dictSet _ _ _ _ hmem with h' | h'
      · exact hk h'
      · exact h.1 h'

theorem dictPop_sublist (k : String) (d : PyDict) : List.Sublist (dictPop k d) d := by
  induction d with
  | nil => simp [dictPop]
  | cons p t ih =>
    obtain ⟨k', v'⟩ := p
    by_cases hk : k' = k
    · simp [dictPop, hk]
    · simpa [dictPop, hk] using ih.cons₂ (k', v')

theorem nodup_keys_dictPop (k : String) (d : PyDict)
    (h : (d.map Prod.fst).Nodup) : ((dictPop k d).map Prod.fst).Nodup :=
  ((dictPop_sublist k d).map Prod.fst).nodup h

theorem dictGet_dictPop_self (k : String) (d : PyDict)
    (h : (d.map Prod.fst).Nodup) : dictGet k (dictPop k d) = none := by
  induction d with
  | nil => rfl
  | cons p t ih =>
    obtain ⟨k', v'⟩ := p
    simp only [List.map_cons, List.nodup_cons] at h
    by_cases hk : k' = k
    · subst hk
      have hpop : dictPop k' ((k', v') :: t) = t := by simp [dictPop]
      have hfind : List.find? (fun p => decide (p.1 = k')) t = none := by
        rw [List.find?_eq_none]
        intro x hx
        simp only [decide_eq_true_eq]
        intro hx1
        exact h.1 (hx1 ▸ List.mem_map_of_mem Prod.fst hx)
      rw [hpop, dictGet, hfind]
      rfl
    · have hpop : dictPop k ((k', v') :: t) = (k', v') :: dictPop k t := by
        simp [dictPop, hk]
      rw [hpop, dictGet, List.find?_cons_of_neg]
      · exact ih h.2
      · simp [hk]

theorem dictPop_absent (k : String) (d : PyDict)
    (h : dictGet k d = none) : dictPop k d = d := by
  induction d with
  | nil => rfl
  | cons p t ih =>
    obtain ⟨k', v'⟩ := p
    simp only [dictGet, List.find?_cons] at h
    by_cases hk : k' = k
    · simp [decide_eq_true (show (k', v').1 = k from hk)] at h
    · simp only [decide_eq_false (show ¬ (k', v').1 = k from hk)] at h
      simp only [dictPop, if_neg hk]
      rw [ih h]

/-! ### Registry invariant -/

theorem nodupKeys_applyOp (st : SigState) (op : RegOp)
    (h : nodupKeys st) : nodupKeys (applyOp st op) := by
  cases op with
  | regDevice uid ch => exact ⟨nodup_keys_dictSet _ _ _ h.1, h.2⟩
  | unregDevice uid => exact ⟨nodup_keys_dictPop _ _ h.1, h.2⟩
  | regUser k ch => exact ⟨h.1, nodup_keys_dictSet _ _ _ h.2⟩
  | unregUser k => exact ⟨h.1, nodup_keys_dictPop _ _ h.2⟩

theorem nodupKeys_applyOps (st : SigState) (ops : List RegOp)
    (h : nodupKeys st) : nodupKeys (applyOps st ops) := by
  induction ops generalizing st with
  | nil => exact h
  | cons op t ih => exact ih _ (nodupKeys_applyOp _ _ h)

/-! ### Claim theorems -/

/-- C1: the source performs `find_one({token, status: pending})` and an
unconditional `update_one({_id})` as two separate awaited operations, not
one atomic compare-and-swap. Under the interleaving find₁·find₂·update₁·
update₂ on a single pending record, both concurrent activations succeed
(neither observes `NotFound`) and the record's final `device_uid` is the
second writer's, refuting "exactly one call succeeds and the other M−1
fail with NotFound". -/
theorem activate_race_not_atomic :
    (activate_interleaved raceDB (raceReq "uidA") (raceReq "uidB") "t1" "t2").2.1
      = ActResult.ok 0
    ∧ (activate_interleaved raceDB (raceReq "uidA") (raceReq "uidB") "t1" "t2").2.2
      = ActResult.ok 0
    ∧ (find_one (activate_interleaved raceDB (raceReq "uidA") (raceReq "uidB") "t1" "t2").1
        (fun r => decide (r.device_token = "tok0"))).map (fun r => r.device_uid)
      = some (some "uidB") := by
  exact ⟨by decide, by decide, by decide⟩

/-- C3: `main.py` never binds the name `json`, so for every session the
first receive step of `websocket_endpoint` raises `NameError` before any
registration can run; the generic `except` handler closes the connection
and the registry is left untouched, whatever loader `json` would have
denoted and whatever the first message was. -/
theorem ws_first_message_unbound_json (loads : String → Option ParsedMsg)
    (st : SigState) (ch : Chan) (msg : String) :
    websocket_first_step (mainJsonBinding loads) st ch msg
      = (st, SessionResult.nameErrorClosed) := rfl

/-- C4: the `except Exception` path of `websocket_endpoint` closes the
socket without calling unregister, so a registered device session whose
receive loop ends with any exception other than `WebSocketDisconnect`
keeps its registry entry: after cleanup, `cam1` is still addressable. -/
theorem ws_cleanup_other_error_keeps_entry :
    websocket_cleanup LoopExit.otherError "device" "cam1"
        (register_device "cam1" 7 emptySig) = register_device "cam1" 7 emptySig
    ∧ dictGet "cam1" (websocket_cleanup LoopExit.otherError "device" "cam1"
        (register_device "cam1" 7 emptySig)).devices = some 7 := by
  exact ⟨rfl, by decide⟩

/-- C5: every registry state reachable by register/unregister operations
from the initial empty maps has pairwise-distinct keys in both maps (at
most one channel addressable per role and key), and a second registration
for the same key supersedes the first: after `register(role,k,chA)` then
`register(role,k,chB)` the lookup for `k` yields `chB`, in a state whose
key sets are still duplicate-free. -/
theorem registry_single_entry_and_supersede (ops : List RegOp) (k : String)
    (chA chB : Chan) :
    nodupKeys (applyOps emptySig ops)
    ∧ dictGet k (register_user k chB (register_user k chA (applyOps emptySig ops))).users
        = some chB
    ∧ dictGet k (register_device k chB (register_device k chA (applyOps emptySig ops))).devices
        = some chB
    ∧ nodupKeys (register_user k chB (register_user k chA (applyOps emptySig ops)))
    ∧ nodupKeys (register_device k chB (register_device k chA (applyOps emptySig ops))) := by
  have h0 : nodupKeys emptySig := by constructor <;> simp [emptySig]
  have h1 := nodupKeys_applyOps emptySig ops h0
  refine ⟨h1, dictGet_dictSet_self _ _ _, dictGet_dictSet_self _ _ _, ?_, ?_⟩
  · exact nodupKeys_applyOp _ (RegOp.regUser k chB)
      (nodupKeys_applyOp _ (RegOp.regUser k chA) h1)
  · exact nodupKeys_applyOp _ (RegOp.regDevice k chB)
      (nodupKeys_applyOp _ (RegOp.regDevice k chA) h1)

/-- C6: compact encoding emits no server URL, camera model or user
identity (neither the alias keys `u`, `m`, `i` nor the full names occur),
and decoding the compact payload recovers `wifi_ssid`, `wifi_password`
and `device_token` exactly while the omitted fields come back as `None`
values rather than raising. -/
theorem compact_encode_omits_and_decodes (f : QrFields) :
    hasKey "u" (generate_qr_data f true) = false
    ∧ hasKey "m" (generate_qr_data f true) = false
    ∧ hasKey "i" (generate_qr_data f true) = false
    ∧ hasKey "server_url" (generate_qr_data f true) = false
    ∧ hasKey "camera_model" (generate_qr_data f true) = false
    ∧ hasKey "user_id" (generate_qr_data f true) = false
    ∧ jget "wifi_ssid" (decode_qr_data (generate_qr_data f true))
        = some (JVal.s f.wifi_ssid)
    ∧ jget "wifi_password" (decode_qr_data (generate_qr_data f true))
        = some (JVal.s f.wifi_password)
    ∧ jget "device_token" (decode_qr_data (generate_qr_data f true))
        = some (JVal.s f.device_token)
    ∧ jget "server_url" (decode_qr_data (generate_qr_data f true)) = some JVal.null
    ∧ jget "camera_model" (decode_qr_data (generate_qr_data f true)) = some JVal.null
    ∧ jget "user_id" (decode_qr_data (generate_qr_data f true)) = some JVal.null :=
  ⟨rfl, rfl, rfl, rfl, rfl, rfl, rfl, rfl, rfl, rfl, rfl, rfl⟩

/-- C7: a descriptive payload carries no `s` key, so `decode_qr_data`
returns it unchanged, and each of the six input fields is recovered under
its full name exactly as supplied — the round trip is the identity on the
input field set (the payload additionally carries the constant
`version: "1.0"`, likewise untouched). -/
theorem descriptive_roundtrip_identity (f : QrFields) :
    decode_qr_data (generate_qr_data f false) = generate_qr_data f false
    ∧ jget "wifi_ssid" (decode_qr_data (generate_qr_data f false))
        = some (JVal.s f.wifi_ssid)
    ∧ jget "wifi_password" (decode_qr_data (generate_qr_data f false))
        = some (JVal.s f.wifi_password)
    ∧ jget "server_url" (decode_qr_data (generate_qr_data f false))
        = some (JVal.s f.server_url)
    ∧ jget "device_token" (decode_qr_data (generate_qr_data f false))
        = some (JVal.s f.device_token)
    ∧ jget "user_id" (decode_qr_data (generate_qr_data f false))
        = some (JVal.s f.user_id)
    ∧ jget "camera_model" (decode_qr_data (generate_qr_data f false))
        = some (JVal.s f.camera_model) :=
  ⟨rfl, rfl, rfl, rfl, rfl, rfl, rfl⟩

/-- C10: forwarding to a role/key with no registry entry hands nothing to
any channel, raises nothing (the functions are total) and returns the
registry unchanged; `unregister` on an absent key is a no-op; and in any
registry with duplicate-free keys, forwarding right after unregistering a
key again delivers nothing and mutates nothing. -/
theorem forward_absent_silent_noop (st st' : SigState) (k m : String)
    (hd : dictGet k st.devices = none) (hu : dictGet k st.users = none)
    (h' : nodupKeys st') :
    forward_to_device k m st = (st, none)
    ∧ forward_to_user k m st = (st, none)
    ∧ unregister_device k st = st
    ∧ unregister_user k st = st
    ∧ forward_to_device k m (unregister_device k st') = (unregister_device k st', none)
    ∧ forward_to_user k m (unregister_user k st') = (unregister_user k st', none) := by
  refine ⟨?_, ?_, ?_, ?_, ?_, ?_⟩
  · simp [forward_to_device, hd]
  · simp [forward_to_user, hu]
  · simp [unregister_device, dictPop_absent _ _ hd]
  · simp [unregister_user, dictPop_absent _ _ hu]
  · simp [forward_to_device, unregister_device, dictGet_dictPop_self _ _ h'.1]
  · simp [forward_to_user, unregister_user, dictGet_dictPop_self _ _ h'.2]

/-- A small populated registry used to instantiate C10. -/
def wSt : SigState := register_user "u1" 3 (register_device "cam1" 7 emptySig)

/-- C10 witness: the statement applied to the empty registry and to `wSt`,
for key `cam1`. -/
theorem forward_absent_silent_noop_witness :
    forward_to_device "cam1" "hello" emptySig = (emptySig, none)
    ∧ forward_to_user "cam1" "hello" emptySig = (emptySig, none)
    ∧ unregister_device "cam1" emptySig = emptySig
    ∧ unregister_user "cam1" emptySig = emptySig
    ∧ forward_to_device "cam1" "hello" (unregister_device "cam1" wSt)
        = (unregister_device "cam1" wSt, none)
    ∧ forward_to_user "cam1" "hello" (unregister_user "cam1" wSt)
        = (unregister_user "cam1" wSt, none) :=
  forward_absent_silent_noop emptySig wSt "cam1" "hello" (by decide) (by decide) (by decide)

/-! ### Token freshness across repeated onboarding -/

theorem initiateN_tokens (req : OnboardRequest) (u now : String)
    (uuid : Nat → String) : ∀ n,
    (initiateN req u now uuid n).map (fun r => r.device_token)
      = (List.range n).map uuid
  | 0 => rfl
  | n + 1 => by
    simp only [initiateN, initiate_device_onboarding, List.map_append,
      initiateN_tokens req u now uuid n, List.range_succ, List.map_cons,
      List.map_nil, mkPendingDoc]

theorem tokens_replaceFirst (i : Nat) (req : ActivationReq) (now : String)
    (db : DevicesDB) :
    (replaceFirst i (applySet req now) db).map (fun x => x.device_token)
      = db.map (fun x => x.device_token) := by
  induction db with
  | nil => rfl
  | cons r t ih =>
    by_cases h : r.id = i
    · simp [replaceFirst, h, applySet]
    · simp [replaceFirst, h, ih]

theorem tokens_update_one_set (db : DevicesDB) (i : Nat) (req : ActivationReq)
    (now : String) :
    (update_one_set db i (applySet req now)).1.map (fun x => x.device_token)
      = db.map (fun x => x.device_token) := by
  unfold update_one_set
  cases find_one db (fun r => decide (r.id = i)) with
  | none => rfl
  | some r0 => exact tokens_replaceFirst _ _ _ _

theorem tokens_activate (db : DevicesDB) (r : ActivationReq) (t : String) :
    (activate_device db r t).1.map (fun x => x.device_token)
      = db.map (fun x => x.device_token) := by
  simp only [activate_device]
  cases hf : activate_find db r.device_token with
  | none => rfl
  | some d =>
    simp only [activate_update]
    split <;> exact tokens_update_one_set db d.id r t

/-- C8: the `k`-th `initiate` stores the `k`-th `uuid4` draw verbatim as
`device_token`, so as long as the draws do not collide the `N` issued
tokens are pairwise distinct — and since `initiate` is the only writer of
`device_token` (activation's `$set` never touches it), the tokens of all
records stay pairwise distinct for the lifetime of the system. -/
theorem initiate_tokens_distinct (req : OnboardRequest) (u now : String)
    (uuid : Nat → String) (N : Nat) (db : DevicesDB) (r : ActivationReq) (t : String)
    (hinj : ∀ i, i < N → ∀ j, j < N → uuid i = uuid j → i = j) :
    ((initiateN req u now uuid N).map (fun x => x.device_token)).Nodup
    ∧ (activate_device db r t).1.map (fun x => x.device_token)
        = db.map (fun x => x.device_token) := by
  constructor
  · rw [initiateN_tokens]
    refine List.Nodup.map_on ?_ (List.nodup_range N)
    intro i hi j hj hij
    exact hinj i (List.mem_range.mp hi) j (List.mem_range.mp hj) hij
  · exact tokens_activate db r t

/-- Injective stand-in for the stream of `uuid4` draws. -/
def wUuid (n : Nat) : String := String.mk (List.replicate n 'a')

/-- C8 witness: three onboarding calls with non-colliding draws yield
pairwise-distinct stored tokens, and a concrete activation rewrites no
token. -/
theorem initiate_tokens_distinct_witness :
    ((initiateN raceOnboardReq "u1" "t0" wUuid 3).map (fun x => x.device_token)).Nodup
    ∧ (activate_device raceDB (raceReq "uidA") "t1").1.map (fun x => x.device_token)
        = raceDB.map (fun x => x.device_token) :=
  initiate_tokens_distinct raceOnboardReq "u1" "t0" wUuid 3 raceDB (raceReq "uidA") "t1"
    (by decide)

/-- C9: `initiate` appends exactly one record, with status `pending` and
`device_uid` null, and — provided the drawn token is fresh for the
collection — `check_device_status` on the returned token then reports
status `pending` with `activated = false`. -/
theorem initiate_then_check_pending (db : DevicesDB) (req : OnboardRequest)
    (u tok now : String)
    (hfresh : ∀ r ∈ db, r.device_token ≠ tok) :
    (initiate_device_onboarding db req u tok now).1
      = db ++ [mkPendingDoc req u tok now db.length]
    ∧ (mkPendingDoc req u tok now db.length).status = DStatus.pending
    ∧ (mkPendingDoc req u tok now db.length).device_uid = none
    ∧ check_device_status (initiate_device_onboarding db req u tok now).1 tok
        = some { device_id := db.length, status := DStatus.pending,
                 device_name := some req.device_name, activated := false } := by
  refine ⟨rfl, rfl, rfl, ?_⟩
  have hnone : db.find? (fun r => decide (r.device_token = tok)) = none := by
    rw [List.find?_eq_none]
    intro x hx
    simpa using hfresh x hx
  unfold check_device_status find_one initiate_device_onboarding
  rw [List.find?_append, hnone]
  simp [mkPendingDoc]

/-- C9 witness: onboarding into an empty collection with token `tokW` and
polling that token. -/
theorem initiate_then_check_pending_witness :
    check_device_status
        (initiate_device_onboarding [] raceOnboardReq "u1" "tokW" "t0").1 "tokW"
      = some { device_id := 0, status := DStatus.pending,
               device_name := some "My Camera", activated := false } :=
  (initiate_then_check_pending [] raceOnboardReq "u1" "tokW" "t0" (by decide)).2.2.2

/-! ### Activation: a sequential success is exclusive -/

theorem isPending_fields (tok : String) (d : DeviceRecord)
    (h : isPendingWithToken tok d = true) :
    d.device_token = tok ∧ d.status = DStatus.pending := by
  simpa [isPendingWithToken] using h

theorem find_id_of_nodup (db : DevicesDB) (d : DeviceRecord)
    (hids : (db.map (fun r => r.id)).Nodup) (hmem : d ∈ db) :
    find_one db (fun r => decide (r.id = d.id)) = some d := by
  induction db with
  | nil => cases hmem
  | cons r t ih =>
    simp only [List.map_cons, List.nodup_cons] at hids
    rcases List.mem_cons.mp hmem with h | h
    · subst h
      simp [find_one]
    · have hne : ¬ r.id = d.id := by
        intro he
        exact hids.1 (by rw [he]; exact List.mem_map_of_mem (fun x => x.id) h)
      unfold find_one at ih ⊢
      rw [List.find?_cons_of_neg]
      · exact ih hids.2 h
      · simp [hne]

theorem activate_success_core (db : DevicesDB) (tok : String) (req : ActivationReq)
    (now : String) (d : DeviceRecord)
    (hids : (db.map (fun r => r.id)).Nodup)
    (htok : db.countP (fun r => decide (r.device_token = tok)) ≤ 1)
    (hd : find_one db (isPendingWithToken tok) = some d) :
    find_one (replaceFirst d.id (applySet req now) db)
        (fun r => decide (r.device_token = tok)) = some (applySet req now d)
    ∧ find_one (replaceFirst d.id (applySet req now) db) (isPendingWithToken tok)
        = none := by
  induction db with
  | nil => simp [find_one] at hd
  | cons r t ih =>
    simp only [List.map_cons, List.nodup_cons] at hids
    by_cases hp : isPendingWithToken tok r = true
    · have hdr : d = r := by
        unfold find_one at hd
        rw [List.find?_cons_of_pos _ hp] at hd
        exact (Option.some.inj hd).symm
      subst hdr
      have hdt : d.device_token = tok := (isPending_fields tok d hp).1
      have hrep : replaceFirst d.id (applySet req now) (d :: t)
          = applySet req now d :: t := by simp [replaceFirst]
      rw [hrep]
      have htnone : ∀ x ∈ t, ¬ (decide (x.device_token = tok) = true) := by
        have hcount : t.countP (fun x => decide (x.device_token = tok)) = 0 := by
          have h2 := htok
          rw [List.countP_cons_of_pos] at h2
          · omega
          · simpa using hdt
        intro x hx
        simpa using List.countP_eq_zero.mp hcount x hx
      constructor
      · unfold find_one
        rw [List.find?_cons_of_pos]
        simp [applySet, hdt]
      · have hneg : ¬ (isPendingWithToken tok (applySet req now d) = true) := by
          simp [isPendingWithToken, applySet]
        unfold find_one
        rw [List.find?_cons_of_neg _ hneg, List.find?_eq_none]
        intro x hx hpx
        exact htnone x hx (by simp [(isPending_fields tok x hpx).1])
    · have hdt2 : find_one t (isPendingWithToken tok) = some d := by
        unfold find_one at hd ⊢
        rwa [List.find?_cons_of_neg _ hp] at hd
      have hdm : d ∈ t := List.mem_of_find?_eq_some hdt2
      have hdtok : d.device_token = tok :=
        (isPending_fields tok d (List.find?_some hdt2)).1
      have hrid : ¬ r.id = d.id := by
        intro he
        exact hids.1 (by rw [he]; exact List.mem_map_of_mem (fun x => x.id) hdm)
      by_cases hrt : r.device_token = tok
      · exfalso
        have h1 : 0 < t.countP (fun x => decide (x.device_token = tok)) :=
          List.countP_pos_iff.mpr ⟨d, hdm, by simp [hdtok]⟩
        have h2 := htok
        rw [List.countP_cons_of_pos] at h2
        · omega
        · simpa using hrt
      · have hrep : replaceFirst d.id (applySet req now) (r :: t)
            = r :: replaceFirst d.id (applySet req now) t := by
          simp [replaceFirst, hrid]
        have htok' : t.countP (fun x => decide (x.device_token = tok)) ≤ 1 := by
          have h2 := htok
          rwa [List.countP_cons_of_neg] at h2
          simpa using hrt
        obtain ⟨ih1, ih2⟩ := ih hids.2 htok' hdt2
        rw [hrep]
        constructor
        · unfold find_one at ih1 ⊢
          rw [List.find?_cons_of_neg _ (by simpa using hrt)]
          exact ih1
        · unfold find_one at ih2 ⊢
          rw [List.find?_cons_of_neg _ hp]
          exact ih2

/-- C2: in a collection with distinct `_id`s in which at most one record
carries the token, once `activate(t, uid, ip)` has returned success,
`check_device_status(t)` reports status `active` with `activated = true`,
and a second sequential `activate(t, uid2, ip2)` fails with `NotFound`
(404): its `find_one` on token + `pending` no longer matches. -/
theorem activate_then_check_and_reactivate (db : DevicesDB)
    (req req2 : ActivationReq) (now now2 : String) (i : Nat)
    (hids : (db.map (fun r => r.id)).Nodup)
    (htok : db.countP (fun r => decide (r.device_token = req.device_token)) ≤ 1)
    (ht2 : req2.device_token = req.device_token)
    (hsucc : (activate_device db req now).2 = ActResult.ok i) :
    (∃ resp, check_device_status (activate_device db req now).1 req.device_token
        = some resp ∧ resp.status = DStatus.active ∧ resp.activated = true)
    ∧ (activate_device (activate_device db req now).1 req2 now2).2
        = ActResult.notFound := by
  cases hf : activate_find db req.device_token with
  | none => simp [activate_device, hf] at hsucc
  | some d =>
    have hdm : d ∈ db := List.mem_of_find?_eq_some hf
    have hfind_id : find_one db (fun r => decide (r.id = d.id)) = some d :=
      find_id_of_nodup db d hids hdm
    have hdp : d.status = DStatus.pending :=
      (isPending_fields _ _ (List.find?_some hf)).2
    have hchanged : ¬ applySet req now d = d := by
      intro he
      have hst := congrArg (fun x => x.status) he
      simp [applySet, hdp] at hst
    have hupd : update_one_set db d.id (applySet req now)
        = (replaceFirst d.id (applySet req now) db, 1) := by
      simp [update_one_set, hfind_id, hchanged]
    have hstate : (activate_device db req now).1
        = replaceFirst d.id (applySet req now) db := by
      simp [activate_device, hf, activate_update, hupd]
    obtain ⟨hq, hpn⟩ :=
      activate_success_core db req.device_token req now d hids htok hf
    constructor
    · refine ⟨{ device_id := (applySet req now d).id,
                status := (applySet req now d).status,
                device_name := some (applySet req now d).device_name,
                activated := decide ((applySet req now d).status = DStatus.active) },
              ?_, ?_, ?_⟩
      · rw [hstate]
        simp [check_device_status, hq]
      · simp [applySet]
      · simp [applySet]
    · have hfind2 : activate_find (replaceFirst d.id (applySet req now) db)
          req2.device_token = none := by
        rw [ht2]
        exact hpn
      rw [hstate]
      simp [activate_device, hfind2]

/-- C2 witness: on the one-record pending collection, activation with uid
`uidA` succeeds, the status poll then reports `active`/`activated`, and a
second activation carrying the same token fails with `NotFound`. -/
theorem activate_then_check_and_reactivate_witness :
    (∃ resp, check_device_status (activate_device raceDB (raceReq "uidA") "t1").1
        (raceReq "uidA").device_token = some resp
      ∧ resp.status = DStatus.active ∧ resp.activated = true)
    ∧ (activate_device (activate_device raceDB (raceReq "uidA") "t1").1
        (raceReq "uidB") "t2").2 = ActResult.notFound :=
  activate_then_check_and_reactivate raceDB (raceReq "uidA") (raceReq "uidB")
    "t1" "t2" 0 (by decide) (by decide) (by decide) (by decide)

end VisionConnect
